import Mathlib

/-!
Verification development for the Environment Canada HRDPS weather API
microservice (`app.py`).

Modelling conventions:
* Python floats are modelled as exact rationals (`ℚ`); every value the
  claims exercise is a short decimal, so no binary-rounding discrepancy
  affects any comparison or rounding performed below.
* The upstream WCS service is modelled as an oracle
  `fetch : String → FetchResult` mapping a layer identifier to the outcome
  of `fetch_layer_value` for that layer (network transport, temp files and
  netCDF parsing are outside the modelled core; only the resulting
  status/value pair reaches the rest of the program).
* `calculate_wind_speed_direction` works on irrational values
  (`sqrt`, `atan2`), so it is embedded over `ℝ` separately; inside the two
  HTTP handlers, which otherwise compute in `ℚ`, the composition function
  is abstracted as a parameter `calcWind : ℚ → ℚ → ℚ × ℚ` — the branch
  using it is proved unreachable (the `wind_u`/`wind_v` names resolve to
  nothing), and every handler theorem is quantified over all `calcWind`.
* Python `round` is round-half-to-even (`roundHalfEven`, `pyRound`).
-/

/-- Outcome of `fetch_layer_value` for one layer id: either the
`status == "success"` dict carrying the extracted value and units, or an
error dict (HTTP error / parse error / timeout). -/
inductive FetchResult where
  | success (value : ℚ) (units : String)
  | fetchError (detail : String)
deriving DecidableEq

/-- Whether a fetch outcome has `status == "success"`. -/
def FetchResult.isSuccess : FetchResult → Bool
  | .success _ _ => true
  | .fetchError _ => false

/-- Outcome of `try_layer_with_alternates`: the successful fetch dict
passed through, or the `status == "not_available"` dict. -/
inductive LayerResult where
  | success (value : ℚ) (units : String)
  | notAvailable
deriving DecidableEq

/-- Whether a resolver outcome has `status == "success"`. -/
def LayerResult.isSuccess : LayerResult → Bool
  | .success _ _ => true
  | .notAvailable => false

/-- The `HRDPS_LAYERS` dict (semantic variable name → primary WCS layer
id), as the `.get` lookup function used by the code. -/
def HRDPS_LAYERS : String → Option String := fun name =>
  match name with
  | "temperature" => some "HRDPS.CONTINENTAL_TT"
  | "wind_speed" => some "HRDPS.CONTINENTAL_WSPD"
  | "wind_gust" => some "HRDPS.CONTINENTAL_GUST"
  | "wind_direction" => some "HRDPS.CONTINENTAL_WD"
  | "pressure" => some "HRDPS.CONTINENTAL_P0"
  | "precip_accum" => some "HRDPS.CONTINENTAL_PR"
  | "specific_humidity" => some "HRDPS.CONTINENTAL_HU"
  | "cloud_cover" => some "HRDPS.CONTINENTAL_TCDC"
  | _ => none

/-- The `HRDPS_LAYER_ALTERNATES` dict is empty; `.get(var_name, [])`
therefore returns `[]` for every name. -/
def HRDPS_LAYER_ALTERNATES : String → List String := fun _ => []

/-- The alternates loop of `try_layer_with_alternates`: fetch each layer
id in order, stop at the first success.  The second component records the
layer ids actually fetched, in order. -/
def tryAlternates (fetch : String → FetchResult) :
    List String → LayerResult × List String
  | [] => (LayerResult.notAvailable, [])
  | l :: ls =>
    match fetch l with
    | .success v u => (LayerResult.success v u, [l])
    | .fetchError _ =>
      let r := tryAlternates fetch ls
      (r.1, l :: r.2)

/-- `try_layer_with_alternates`, generic in the two layer dicts (the code
reads them as globals).  Returns the resolver outcome together with the
trace of layer ids fetched from upstream. -/
def tryLayerTrace (layers : String → Option String)
    (alternates : String → List String)
    (fetch : String → FetchResult) (varName : String) :
    LayerResult × List String :=
  match layers varName with
  | some primary =>
    match fetch primary with
    | .success v u => (LayerResult.success v u, [primary])
    | .fetchError _ =>
      let r := tryAlternates fetch (alternates varName)
      (r.1, primary :: r.2)
  | none => tryAlternates fetch (alternates varName)

/-- `try_layer_with_alternates` with the program's layer dicts. -/
def try_layer_with_alternates (fetch : String → FetchResult)
    (varName : String) : LayerResult × List String :=
  tryLayerTrace HRDPS_LAYERS HRDPS_LAYER_ALTERNATES fetch varName

/-- `mps_to_knots`: metres per second to knots. -/
def mps_to_knots (mps : ℚ) : ℚ := mps * 1.94384

/-- Round-half-to-even to an integer, Python's `round(x)` on exact
rational inputs. -/
def roundHalfEven (x : ℚ) : ℤ :=
  if x - ⌊x⌋ < 1/2 then ⌊x⌋
  else if x - ⌊x⌋ > 1/2 then ⌊x⌋ + 1
  else if ⌊x⌋ % 2 = 0 then ⌊x⌋ else ⌊x⌋ + 1

/-- Python's `round(x, digits)` on exact rational inputs. -/
def pyRound (x : ℚ) (digits : ℕ) : ℚ :=
  (roundHalfEven (x * 10 ^ digits) : ℚ) / 10 ^ digits

/-- The issue strings `bvlos_assessment` can append, as a tagged type
carrying the numeric payloads that the f-strings render.  Each constructor
corresponds to exactly one of the six f-string templates in the source. -/
inductive Issue where
  | windExceeds (speedKts maxWind : ℚ)
  | gustExceeds (gustKts maxGust : ℚ)
  | windUnavailable
  | extremeCold (tempC : ℚ)
  | heavyPrecip (mm : ℚ)
  | moderatePrecip (mm : ℚ)
deriving DecidableEq

/-!
The status reduction tests substrings of the rendered issue texts
(`"exceeds" in i`, `"Heavy" in i`, ...).  The rendered payloads are
Python float formattings, made of digits, `.` and `-` only, so each
keyword occurs in a rendered issue iff its template contains it:
`"exceeds"` in the two wind/gust templates, `"Heavy"`, `"Extreme"`,
`"unavailable"`, `"Moderate"` each in exactly one template.  The
predicates below are those substring tests, decided by template.
-/

/-- Substring test `"exceeds" in i` on the rendered issue text. -/
def hasKwExceeds : Issue → Bool
  | .windExceeds _ _ => true
  | .gustExceeds _ _ => true
  | _ => false

/-- Substring test `"Heavy" in i` on the rendered issue text. -/
def hasKwHeavy : Issue → Bool
  | .heavyPrecip _ => true
  | _ => false

/-- Substring test `"Extreme" in i` on the rendered issue text. -/
def hasKwExtreme : Issue → Bool
  | .extremeCold _ => true
  | _ => false

/-- Substring test `"unavailable" in i` on the rendered issue text. -/
def hasKwUnavailable : Issue → Bool
  | .windUnavailable => true
  | _ => false

/-- Substring test `"Moderate" in i` on the rendered issue text. -/
def hasKwModerate : Issue → Bool
  | .moderatePrecip _ => true
  | _ => false

/-- The overall-status reduction of `bvlos_assessment` (lines 420-432):
top-down, first match wins; returns (status, recommendation). -/
def determineStatus (issues : List Issue) : String × String :=
  if issues.any (fun i => hasKwExceeds i || hasKwHeavy i || hasKwExtreme i) then
    ("RED", "NO-GO: Conditions exceed safe limits")
  else if issues.any (fun i => hasKwUnavailable i || hasKwModerate i) then
    ("YELLOW", "CAUTION: Review conditions carefully")
  else if issues.isEmpty then
    ("GREEN", "GO: Conditions within limits")
  else
    ("YELLOW", "CAUTION: Minor concerns noted")

/-- Severity taxonomy of the specification. -/
inductive Severity where
  | exceeds
  | below
  | heavy
  | unavailable
  | moderate
deriving DecidableEq

/-- Modelled from the spec: the severity keyword each issue carries.  The
wind and gust limit issues carry `exceeds`; the too-cold temperature issue
(the spec renders it "Temperature X°C below Y°C minimum") carries `below`;
heavy precipitation carries `heavy`; missing wind data carries
`unavailable`; moderate precipitation carries `moderate`. -/
def severity : Issue → Severity
  | .windExceeds _ _ => .exceeds
  | .gustExceeds _ _ => .exceeds
  | .windUnavailable => .unavailable
  | .extremeCold _ => .below
  | .heavyPrecip _ => .heavy
  | .moderatePrecip _ => .moderate

/-- Whether a severity is in the claim's RED tier (`exceeds`, `below` or
`heavy`). -/
def severityIsRed : Severity → Bool
  | .exceeds => true
  | .below => true
  | .heavy => true
  | _ => false

/-- Whether a severity is in the claim's YELLOW tier (`unavailable` or
`moderate`). -/
def severityIsYellow : Severity → Bool
  | .unavailable => true
  | .moderate => true
  | _ => false

/-- Modelled from the spec: the claim's status reduction, phrased over
severities — top-down, first match wins: any `exceeds`/`below`/`heavy` →
RED with the NO-GO recommendation; else any `unavailable`/`moderate` →
YELLOW (the spec's recommendation for this tier is "CAUTION: Review
conditions carefully", which the claim leaves unstated); else empty list →
GREEN with the GO recommendation; otherwise YELLOW with "CAUTION: Minor
concerns noted". -/
def specStatusReduction (issues : List Issue) : String × String :=
  if issues.any (fun i => severityIsRed (severity i)) then
    ("RED", "NO-GO: Conditions exceed safe limits")
  else if issues.any (fun i => severityIsYellow (severity i)) then
    ("YELLOW", "CAUTION: Review conditions carefully")
  else if issues.isEmpty then
    ("GREEN", "GO: Conditions within limits")
  else
    ("YELLOW", "CAUTION: Minor concerns noted")

/-- Python's `%` on reals with positive modulus (as used for `% 360`). -/
noncomputable def fmod (x y : ℝ) : ℝ := x - y * ⌊x / y⌋

/-- `np.arctan2 y x`: the argument of the point (x, y), in (-π, π]. -/
noncomputable def arctan2 (y x : ℝ) : ℝ := Complex.arg ⟨x, y⟩

/-- `np.degrees`: radians to degrees. -/
noncomputable def degrees (r : ℝ) : ℝ := r * 180 / Real.pi

/-- `calculate_wind_speed_direction`: wind speed and meteorological
wind-FROM direction from U/V components. -/
noncomputable def calculate_wind_speed_direction (u v : ℝ) : ℝ × ℝ :=
  (Real.sqrt (u ^ 2 + v ^ 2),
   fmod (degrees (arctan2 (-u) (-v)) + 360) 360)

/-- Response of the `/bvlos-assessment` handler, as far as it is
deterministic data: the HTTP code, the `conditions` dict (insertion-ordered
key/value list; a `none` value is JSON null), the issues, the status and
the recommendation.  The echoed location/thresholds, the wall-clock
`timestamp` and the constant `data_source` string are omitted. -/
structure BvlosResult where
  code : ℕ
  conditions : List (String × Option ℚ)
  issues : List Issue
  status : String
  recommendation : String
deriving DecidableEq

/-- The `/bvlos-assessment` handler (`bvlos_assessment`), after parameter
parsing: coordinates and thresholds are already floats.  `calcWind`
abstracts `calculate_wind_speed_direction` (see the header note); it is
only consulted in the U/V fallback branch. -/
def bvlosModel (calcWind : ℚ → ℚ → ℚ × ℚ) (fetch : String → FetchResult)
    (lat lon maxWind maxGust : ℚ) : BvlosResult :=
  if 40 ≤ lat ∧ lat ≤ 85 ∧ -145 ≤ lon ∧ lon ≤ -50 then
    let windBlock :=
      match (try_layer_with_alternates fetch "wind_speed").1 with
      | .success v _ =>
        let speedKts := mps_to_knots v
        ([("wind_speed_kts", some (pyRound speedKts 1))],
         if speedKts > maxWind then [Issue.windExceeds speedKts maxWind] else [])
      | .notAvailable =>
        match (try_layer_with_alternates fetch "wind_u").1,
              (try_layer_with_alternates fetch "wind_v").1 with
        | .success u _, .success v _ =>
          let speedKts := mps_to_knots (calcWind u v).1
          ([("wind_speed_kts", some (pyRound speedKts 1))],
           if speedKts > maxWind then [Issue.windExceeds speedKts maxWind] else [])
        | _, _ => ([], [Issue.windUnavailable])
    let gustBlock :=
      match (try_layer_with_alternates fetch "wind_gust").1 with
      | .success v _ =>
        let gustKts := mps_to_knots v
        ([("wind_gust_kts", some (pyRound gustKts 1))],
         if gustKts > maxGust then [Issue.gustExceeds gustKts maxGust] else [])
      | .notAvailable => ([("wind_gust_kts", (none : Option ℚ))], [])
    let tempBlock :=
      match (try_layer_with_alternates fetch "temperature").1 with
      | .success v _ =>
        ([("temperature_c", some (pyRound v 1))],
         if v < -20 then [Issue.extremeCold v] else [])
      | .notAvailable => ([], [])
    let precipBlock :=
      match (try_layer_with_alternates fetch "precip_accum").1 with
      | .success v _ =>
        ([("precipitation_mm", some (pyRound v 2))],
         if v > 5 then [Issue.heavyPrecip v]
         else if v > 1 then [Issue.moderatePrecip v]
         else [])
      | .notAvailable => ([], [])
    let issues := windBlock.2 ++ gustBlock.2 ++ tempBlock.2 ++ precipBlock.2
    let sr := determineStatus issues
    { code := 200
      conditions := windBlock.1 ++ gustBlock.1 ++ tempBlock.1 ++ precipBlock.1
      issues := issues
      status := sr.1
      recommendation := sr.2 }
  else
    { code := 400, conditions := [], issues := [], status := "", recommendation := "" }

/-- Response of the `/weather` handler: HTTP code, the per-variable result
fields (absent key = `none`), and `unavailable_data`.  The echoed
location, wall-clock timestamp and the constant metadata fields are
omitted. -/
structure WeatherResult where
  code : ℕ
  temperature_c : Option ℚ
  wind_speed_mps : Option ℚ
  wind_speed_kts : Option ℚ
  wind_direction_deg : Option ℤ
  wind_gust_mps : Option ℚ
  wind_gust_kts : Option ℚ
  precipitation_mm : Option ℚ
  cloud_cover_pct : Option ℤ
  specific_humidity_kgkg : Option ℚ
  unavailable_data : List String
deriving DecidableEq

/-- The `/weather` handler (`get_weather`), after parameter parsing.
`calcWind` abstracts `calculate_wind_speed_direction`, consulted only in
the U/V fallback branch (speed, direction). -/
def getWeatherModel (calcWind : ℚ → ℚ → ℚ × ℚ)
    (fetch : String → FetchResult) (lat lon : ℚ) : WeatherResult :=
  if 40 ≤ lat ∧ lat ≤ 85 ∧ -145 ≤ lon ∧ lon ≤ -50 then
    let tempBlock :=
      match (try_layer_with_alternates fetch "temperature").1 with
      | .success v _ => (some (pyRound v 1), false)
      | .notAvailable => (none, true)
    let windBlock :=
      match (try_layer_with_alternates fetch "wind_speed").1 with
      | .success v _ =>
        (some (pyRound v 1), some (pyRound (mps_to_knots v) 1),
         (none : Option ℤ), false)
      | .notAvailable =>
        match (try_layer_with_alternates fetch "wind_u").1,
              (try_layer_with_alternates fetch "wind_v").1 with
        | .success u _, .success v _ =>
          let sd := calcWind u v
          (some (pyRound sd.1 1), some (pyRound (mps_to_knots sd.1) 1),
           some (roundHalfEven sd.2), false)
        | _, _ => (none, none, none, true)
    let dirBlock :=
      match (try_layer_with_alternates fetch "wind_direction").1 with
      | .success v _ => (some (roundHalfEven v), false)
      | .notAvailable =>
        match windBlock.2.2.1 with
        | some d => (some d, false)
        | none => ((none : Option ℤ), true)
    let gustBlock :=
      match (try_layer_with_alternates fetch "wind_gust").1 with
      | .success v _ =>
        (some (pyRound v 1), some (pyRound (mps_to_knots v) 1), false)
      | .notAvailable => (none, none, true)
    let precipBlock :=
      match (try_layer_with_alternates fetch "precip_accum").1 with
      | .success v _ => (some (pyRound v 2), false)
      | .notAvailable => (none, true)
    let cloudBlock :=
      match (try_layer_with_alternates fetch "cloud_cover").1 with
      | .success v _ => (some (roundHalfEven v), false)
      | .notAvailable => ((none : Option ℤ), true)
    let humidityBlock :=
      match (try_layer_with_alternates fetch "specific_humidity").1 with
      | .success v _ => (some (pyRound v 6), false)
      | .notAvailable => (none, true)
    { code := 200
      temperature_c := tempBlock.1
      wind_speed_mps := windBlock.1
      wind_speed_kts := windBlock.2.1
      wind_direction_deg := dirBlock.1
      wind_gust_mps := gustBlock.1
      wind_gust_kts := gustBlock.2.1
      precipitation_mm := precipBlock.1
      cloud_cover_pct := cloudBlock.1
      specific_humidity_kgkg := humidityBlock.1
      unavailable_data :=
        (if tempBlock.2 then ["temperature"] else []) ++
        (if windBlock.2.2.2 then ["wind_speed"] else []) ++
        (if dirBlock.2 then ["wind_direction"] else []) ++
        (if gustBlock.2.2 then ["wind_gust"] else []) ++
        (if precipBlock.2 then ["precipitation"] else []) ++
        (if cloudBlock.2 then ["cloud_cover"] else []) ++
        (if humidityBlock.2 then ["humidity"] else []) }
  else
    { code := 400
      temperature_c := none, wind_speed_mps := none, wind_speed_kts := none
      wind_direction_deg := none, wind_gust_mps := none, wind_gust_kts := none
      precipitation_mm := none, cloud_cover_pct := none
      specific_humidity_kgkg := none, unavailable_data := [] }

/-- Collapse of a fetch outcome into a resolver outcome when the variable
has a primary layer and no alternates. -/
def fetchToLayer : FetchResult → LayerResult
  | .success v u => LayerResult.success v u
  | .fetchError _ => LayerResult.notAvailable

theorem tryLayer_eq_of_primary (fetch : String → FetchResult)
    (varName primary : String) (h : HRDPS_LAYERS varName = some primary) :
    try_layer_with_alternates fetch varName =
      (fetchToLayer (fetch primary), [primary]) := by
  cases hf : fetch primary <;>
    simp [try_layer_with_alternates, tryLayerTrace, h, hf, fetchToLayer,
      HRDPS_LAYER_ALTERNATES, tryAlternates]

theorem tryLayer_wind_speed (fetch : String → FetchResult) :
    try_layer_with_alternates fetch "wind_speed" =
      (fetchToLayer (fetch "HRDPS.CONTINENTAL_WSPD"),
       ["HRDPS.CONTINENTAL_WSPD"]) :=
  tryLayer_eq_of_primary fetch _ _ rfl

theorem tryLayer_wind_gust (fetch : String → FetchResult) :
    try_layer_with_alternates fetch "wind_gust" =
      (fetchToLayer (fetch "HRDPS.CONTINENTAL_GUST"),
       ["HRDPS.CONTINENTAL_GUST"]) :=
  tryLayer_eq_of_primary fetch _ _ rfl

theorem tryLayer_temperature (fetch : String → FetchResult) :
    try_layer_with_alternates fetch "temperature" =
      (fetchToLayer (fetch "HRDPS.CONTINENTAL_TT"),
       ["HRDPS.CONTINENTAL_TT"]) :=
  tryLayer_eq_of_primary fetch _ _ rfl

theorem tryLayer_precip (fetch : String → FetchResult) :
    try_layer_with_alternates fetch "precip_accum" =
      (fetchToLayer (fetch "HRDPS.CONTINENTAL_PR"),
       ["HRDPS.CONTINENTAL_PR"]) :=
  tryLayer_eq_of_primary fetch _ _ rfl

theorem tryLayer_wind_direction (fetch : String → FetchResult) :
    try_layer_with_alternates fetch "wind_direction" =
      (fetchToLayer (fetch "HRDPS.CONTINENTAL_WD"),
       ["HRDPS.CONTINENTAL_WD"]) :=
  tryLayer_eq_of_primary fetch _ _ rfl

theorem tryLayer_cloud_cover (fetch : String → FetchResult) :
    try_layer_with_alternates fetch "cloud_cover" =
      (fetchToLayer (fetch "HRDPS.CONTINENTAL_TCDC"),
       ["HRDPS.CONTINENTAL_TCDC"]) :=
  tryLayer_eq_of_primary fetch _ _ rfl

theorem tryLayer_humidity (fetch : String → FetchResult) :
    try_layer_with_alternates fetch "specific_humidity" =
      (fetchToLayer (fetch "HRDPS.CONTINENTAL_HU"),
       ["HRDPS.CONTINENTAL_HU"]) :=
  tryLayer_eq_of_primary fetch _ _ rfl

theorem tryLayer_wind_u (fetch : String → FetchResult) :
    try_layer_with_alternates fetch "wind_u" =
      (LayerResult.notAvailable, []) := rfl

theorem tryLayer_wind_v (fetch : String → FetchResult) :
    try_layer_with_alternates fetch "wind_v" =
      (LayerResult.notAvailable, []) := rfl

/-- A wind composition stand-in for closed evaluations (the branch that
would use it is unreachable). -/
def calcWindZero : ℚ → ℚ → ℚ × ℚ := fun _ _ => (0, 0)

/-- Stub upstream for the spec's end-to-end Ottawa scenario: every layer
fetch succeeds; temperature -5 °C, wind speed 10 m/s, gust 15 m/s,
accumulated precipitation 0.5 mm. -/
def ottawaStub : String → FetchResult := fun layer =>
  match layer with
  | "HRDPS.CONTINENTAL_TT" => FetchResult.success (-5) "Celsius"
  | "HRDPS.CONTINENTAL_WSPD" => FetchResult.success 10 "m/s"
  | "HRDPS.CONTINENTAL_GUST" => FetchResult.success 15 "m/s"
  | "HRDPS.CONTINENTAL_PR" => FetchResult.success 0.5 "kg/(m^2)"
  | _ => FetchResult.success 0 "unknown"

/-- Value of a successful fetch, if any. -/
def successValue : FetchResult → Option ℚ
  | .success v _ => some v
  | .fetchError _ => none

/-- Issues contributed by the wind-speed block of `bvlos_assessment`.
The U/V fallback collapses to "unavailable" because the `wind_u`/`wind_v`
names resolve to nothing (`tryLayer_wind_u`, `tryLayer_wind_v`). -/
def windBlockIssues (fetch : String → FetchResult) (maxWind : ℚ) : List Issue :=
  match fetch "HRDPS.CONTINENTAL_WSPD" with
  | .success v _ =>
    if mps_to_knots v > maxWind then
      [Issue.windExceeds (mps_to_knots v) maxWind] else []
  | .fetchError _ => [Issue.windUnavailable]

/-- Issues contributed by the gust block of `bvlos_assessment`. -/
def gustBlockIssues (fetch : String → FetchResult) (maxGust : ℚ) : List Issue :=
  match fetch "HRDPS.CONTINENTAL_GUST" with
  | .success v _ =>
    if mps_to_knots v > maxGust then
      [Issue.gustExceeds (mps_to_knots v) maxGust] else []
  | .fetchError _ => []

/-- Issues contributed by the temperature block of `bvlos_assessment`. -/
def tempBlockIssues (fetch : String → FetchResult) : List Issue :=
  match fetch "HRDPS.CONTINENTAL_TT" with
  | .success v _ => if v < -20 then [Issue.extremeCold v] else []
  | .fetchError _ => []

/-- Issues contributed by the precipitation block of `bvlos_assessment`. -/
def precipBlockIssues (fetch : String → FetchResult) : List Issue :=
  match fetch "HRDPS.CONTINENTAL_PR" with
  | .success v _ =>
    if v > 5 then [Issue.heavyPrecip v]
    else if v > 1 then [Issue.moderatePrecip v]
    else []
  | .fetchError _ => []

/-- The full issues list of one assessment, in append order. -/
def bvlosIssues (fetch : String → FetchResult) (maxWind maxGust : ℚ) :
    List Issue :=
  windBlockIssues fetch maxWind ++ gustBlockIssues fetch maxGust ++
    tempBlockIssues fetch ++ precipBlockIssues fetch

/-- The `conditions` dict of one assessment, in insertion order. -/
def bvlosConds (fetch : String → FetchResult) : List (String × Option ℚ) :=
  (match fetch "HRDPS.CONTINENTAL_WSPD" with
   | .success v _ => [("wind_speed_kts", some (pyRound (mps_to_knots v) 1))]
   | .fetchError _ => []) ++
  (match fetch "HRDPS.CONTINENTAL_GUST" with
   | .success v _ => [("wind_gust_kts", some (pyRound (mps_to_knots v) 1))]
   | .fetchError _ => [("wind_gust_kts", none)]) ++
  (match fetch "HRDPS.CONTINENTAL_TT" with
   | .success v _ => [("temperature_c", some (pyRound v 1))]
   | .fetchError _ => []) ++
  (match fetch "HRDPS.CONTINENTAL_PR" with
   | .success v _ => [("precipitation_mm", some (pyRound v 2))]
   | .fetchError _ => [])

/-- In-coverage unfolding of the assessment handler: its whole output is
determined by the four relevant layer fetches. -/
theorem bvlos_unfold (calcWind : ℚ → ℚ → ℚ × ℚ)
    (fetch : String → FetchResult) (lat lon maxWind maxGust : ℚ)
    (h : 40 ≤ lat ∧ lat ≤ 85 ∧ -145 ≤ lon ∧ lon ≤ -50) :
    bvlosModel calcWind fetch lat lon maxWind maxGust =
      { code := 200
        conditions := bvlosConds fetch
        issues := bvlosIssues fetch maxWind maxGust
        status := (determineStatus (bvlosIssues fetch maxWind maxGust)).1
        recommendation :=
          (determineStatus (bvlosIssues fetch maxWind maxGust)).2 } := by
  rw [bvlosModel, if_pos h]
  simp only [tryLayer_wind_speed, tryLayer_wind_gust, tryLayer_temperature,
    tryLayer_precip, tryLayer_wind_u, tryLayer_wind_v]
  cases h1 : fetch "HRDPS.CONTINENTAL_WSPD" <;>
    cases h2 : fetch "HRDPS.CONTINENTAL_GUST" <;>
    cases h3 : fetch "HRDPS.CONTINENTAL_TT" <;>
    cases h4 : fetch "HRDPS.CONTINENTAL_PR" <;>
    simp [fetchToLayer, bvlosIssues, bvlosConds, windBlockIssues,
      gustBlockIssues, tempBlockIssues, precipBlockIssues, h1, h2, h3, h4]

/-- Projection of `bvlos_unfold` onto the issues list. -/
theorem bvlos_issues_eq (calcWind : ℚ → ℚ → ℚ × ℚ)
    (fetch : String → FetchResult) (lat lon maxWind maxGust : ℚ)
    (h : 40 ≤ lat ∧ lat ≤ 85 ∧ -145 ≤ lon ∧ lon ≤ -50) :
    (bvlosModel calcWind fetch lat lon maxWind maxGust).issues =
      bvlosIssues fetch maxWind maxGust := by
  rw [bvlos_unfold calcWind fetch lat lon maxWind maxGust h]

/-- Projection of `bvlos_unfold` onto the conditions dict. -/
theorem bvlos_conditions_eq (calcWind : ℚ → ℚ → ℚ × ℚ)
    (fetch : String → FetchResult) (lat lon maxWind maxGust : ℚ)
    (h : 40 ≤ lat ∧ lat ≤ 85 ∧ -145 ≤ lon ∧ lon ≤ -50) :
    (bvlosModel calcWind fetch lat lon maxWind maxGust).conditions =
      bvlosConds fetch := by
  rw [bvlos_unfold calcWind fetch lat lon maxWind maxGust h]

/-- In-coverage unfolding of the weather handler: each response field is
determined by its own layer fetch, and `unavailable_data` lists exactly
the failed variables in the code's append order. -/
theorem getWeather_unfold (calcWind : ℚ → ℚ → ℚ × ℚ)
    (fetch : String → FetchResult) (lat lon : ℚ)
    (h : 40 ≤ lat ∧ lat ≤ 85 ∧ -145 ≤ lon ∧ lon ≤ -50) :
    getWeatherModel calcWind fetch lat lon =
      { code := 200
        temperature_c :=
          (successValue (fetch "HRDPS.CONTINENTAL_TT")).map (fun v => pyRound v 1)
        wind_speed_mps :=
          (successValue (fetch "HRDPS.CONTINENTAL_WSPD")).map (fun v => pyRound v 1)
        wind_speed_kts :=
          (successValue (fetch "HRDPS.CONTINENTAL_WSPD")).map
            (fun v => pyRound (mps_to_knots v) 1)
        wind_direction_deg :=
          (successValue (fetch "HRDPS.CONTINENTAL_WD")).map
            (fun v => roundHalfEven v)
        wind_gust_mps :=
          (successValue (fetch "HRDPS.CONTINENTAL_GUST")).map (fun v => pyRound v 1)
        wind_gust_kts :=
          (successValue (fetch "HRDPS.CONTINENTAL_GUST")).map
            (fun v => pyRound (mps_to_knots v) 1)
        precipitation_mm :=
          (successValue (fetch "HRDPS.CONTINENTAL_PR")).map (fun v => pyRound v 2)
        cloud_cover_pct :=
          (successValue (fetch "HRDPS.CONTINENTAL_TCDC")).map
            (fun v => roundHalfEven v)
        specific_humidity_kgkg :=
          (successValue (fetch "HRDPS.CONTINENTAL_HU")).map (fun v => pyRound v 6)
        unavailable_data :=
          (if (fetch "HRDPS.CONTINENTAL_TT").isSuccess then [] else ["temperature"]) ++
          (if (fetch "HRDPS.CONTINENTAL_WSPD").isSuccess then [] else ["wind_speed"]) ++
          (if (fetch "HRDPS.CONTINENTAL_WD").isSuccess then [] else ["wind_direction"]) ++
          (if (fetch "HRDPS.CONTINENTAL_GUST").isSuccess then [] else ["wind_gust"]) ++
          (if (fetch "HRDPS.CONTINENTAL_PR").isSuccess then [] else ["precipitation"]) ++
          (if (fetch "HRDPS.CONTINENTAL_TCDC").isSuccess then [] else ["cloud_cover"]) ++
          (if (fetch "HRDPS.CONTINENTAL_HU").isSuccess then [] else ["humidity"]) } := by
  rw [getWeatherModel, if_pos h]
  simp only [tryLayer_temperature, tryLayer_wind_speed, tryLayer_wind_u,
    tryLayer_wind_v, tryLayer_wind_direction, tryLayer_wind_gust,
    tryLayer_precip, tryLayer_cloud_cover, tryLayer_humidity]
  cases h1 : fetch "HRDPS.CONTINENTAL_TT" <;>
    cases h2 : fetch "HRDPS.CONTINENTAL_WSPD" <;>
    cases h3 : fetch "HRDPS.CONTINENTAL_WD" <;>
    cases h4 : fetch "HRDPS.CONTINENTAL_GUST" <;>
    cases h5 : fetch "HRDPS.CONTINENTAL_PR" <;>
    cases h6 : fetch "HRDPS.CONTINENTAL_TCDC" <;>
    cases h7 : fetch "HRDPS.CONTINENTAL_HU" <;>
    simp [fetchToLayer, successValue, FetchResult.isSuccess,
      h1, h2, h3, h4, h5, h6, h7]

/-- C1 (counterexample): in the spec's end-to-end Ottawa scenario
(lat 45, lon -75, all fetches succeeding with temperature -5 °C, wind
10 m/s, gust 15 m/s, precipitation 0.5 mm, default thresholds 20/25 kts)
the returned status is NOT GREEN: the 15 m/s gust converts to 29.2 kts,
which exceeds the 25 kts gust limit. -/
theorem claimC1_counterexample :
    ¬ (bvlosModel calcWindZero ottawaStub 45 (-75) 20 25).status = "GREEN" := by
  have h : (bvlosModel calcWindZero ottawaStub 45 (-75) 20 25).status = "RED" := by
    rw [bvlos_unfold calcWindZero ottawaStub 45 (-75) 20 25 (by norm_num)]
    norm_num [bvlosIssues, windBlockIssues, gustBlockIssues, tempBlockIssues,
      precipBlockIssues, ottawaStub, mps_to_knots, determineStatus,
      hasKwExceeds, hasKwHeavy, hasKwExtreme]
  rw [h]; decide

/-- C1 (amended): in the spec's end-to-end Ottawa scenario the reported
wind_speed_kts equals round(10.0 · 1.94384, 1) = 19.4 as claimed, but the
status is RED with the NO-GO recommendation, because the gust condition
29.2 kts exceeds the default 25 kts limit; the only issue raised is the
gust issue. -/
theorem claimC1 :
    (bvlosModel calcWindZero ottawaStub 45 (-75) 20 25).conditions =
      [("wind_speed_kts", some 19.4), ("wind_gust_kts", some 29.2),
       ("temperature_c", some (-5)), ("precipitation_mm", some 0.5)] ∧
    (bvlosModel calcWindZero ottawaStub 45 (-75) 20 25).issues =
      [Issue.gustExceeds 29.1576 25] ∧
    (bvlosModel calcWindZero ottawaStub 45 (-75) 20 25).status = "RED" ∧
    (bvlosModel calcWindZero ottawaStub 45 (-75) 20 25).recommendation =
      "NO-GO: Conditions exceed safe limits" := by
  rw [bvlos_unfold calcWindZero ottawaStub 45 (-75) 20 25 (by norm_num)]
  norm_num [bvlosIssues, bvlosConds, windBlockIssues, gustBlockIssues,
    tempBlockIssues, precipBlockIssues, ottawaStub, mps_to_knots, pyRound,
    roundHalfEven, determineStatus, hasKwExceeds, hasKwHeavy, hasKwExtreme]

/-- C2: the status reduction of the assessment agrees, on every issues
list, with the spec's top-down severity-based reduction (any
exceeds/below/heavy → RED "NO-GO: Conditions exceed safe limits"; else any
unavailable/moderate → YELLOW; else empty → GREEN "GO: Conditions within
limits"; otherwise YELLOW "CAUTION: Minor concerns noted"); in particular
a wind-exceeds issue alone gives RED, the wind-unavailable issue alone
gives YELLOW, and no issues give GREEN. -/
theorem claimC2 :
    (∀ issues : List Issue, determineStatus issues = specStatusReduction issues) ∧
    determineStatus [Issue.windExceeds 25 20] =
      ("RED", "NO-GO: Conditions exceed safe limits") ∧
    determineStatus [Issue.windUnavailable] =
      ("YELLOW", "CAUTION: Review conditions carefully") ∧
    determineStatus [] = ("GREEN", "GO: Conditions within limits") := by
  refine ⟨fun issues => ?_, by rfl, by rfl, by rfl⟩
  have h1 : (fun i => hasKwExceeds i || hasKwHeavy i || hasKwExtreme i) =
      fun i => severityIsRed (severity i) :=
    funext fun i => by cases i <;> rfl
  have h2 : (fun i => hasKwUnavailable i || hasKwModerate i) =
      fun i => severityIsYellow (severity i) :=
    funext fun i => by cases i <;> rfl
  unfold determineStatus specStatusReduction
  rw [h1, h2]

/-- C7: any coordinate with latitude outside [40, 85] or longitude outside
[-145, -50] makes both handlers answer HTTP 400, for every upstream
behavior and every thresholds. -/
theorem claimC7 (calcWind : ℚ → ℚ → ℚ × ℚ) (fetch : String → FetchResult)
    (lat lon maxWind maxGust : ℚ)
    (h : lat < 40 ∨ 85 < lat ∨ lon < -145 ∨ -50 < lon) :
    (getWeatherModel calcWind fetch lat lon).code = 400 ∧
    (bvlosModel calcWind fetch lat lon maxWind maxGust).code = 400 := by
  have hnot : ¬(40 ≤ lat ∧ lat ≤ 85 ∧ -145 ≤ lon ∧ lon ≤ -50) := by
    rcases h with h | h | h | h <;> rintro ⟨a, b, c, d⟩ <;> linarith
  constructor
  · rw [getWeatherModel, if_neg hnot]
  · rw [bvlosModel, if_neg hnot]

/-- Witness for C7 at Paris (lat 48.85, lon 2.35, east of the envelope). -/
theorem claimC7_witness :
    (getWeatherModel calcWindZero ottawaStub 48.85 2.35).code = 400 ∧
    (bvlosModel calcWindZero ottawaStub 48.85 2.35 20 25).code = 400 :=
  claimC7 calcWindZero ottawaStub 48.85 2.35 20 25
    (Or.inr (Or.inr (Or.inr (by norm_num))))

/-- C9: whenever the fetch of a variable's primary layer id succeeds, the
resolver returns exactly that fetch result, and the trace shows the
upstream was queried once, with no alternate attempted. -/
theorem claimC9 (layers : String → Option String)
    (alternates : String → List String) (fetch : String → FetchResult)
    (varName primary : String) (v : ℚ) (u : String)
    (hp : layers varName = some primary)
    (hf : fetch primary = FetchResult.success v u) :
    tryLayerTrace layers alternates fetch varName =
      (LayerResult.success v u, [primary]) := by
  simp [tryLayerTrace, hp, hf]

/-- Witness for C9: the Ottawa stub resolves wind_speed from the primary
layer alone. -/
theorem claimC9_witness :
    tryLayerTrace HRDPS_LAYERS HRDPS_LAYER_ALTERNATES ottawaStub
      "wind_speed" = (LayerResult.success 10 "m/s", ["HRDPS.CONTINENTAL_WSPD"]) :=
  claimC9 HRDPS_LAYERS HRDPS_LAYER_ALTERNATES ottawaStub "wind_speed"
    "HRDPS.CONTINENTAL_WSPD" 10 "m/s" rfl rfl

theorem successValue_eq_none (r : FetchResult) (h : r.isSuccess = false) :
    successValue r = none := by
  cases r <;> simp_all [FetchResult.isSuccess, successValue]

theorem windBlockIssues_of_fail (fetch : String → FetchResult) (maxWind : ℚ)
    (h : (fetch "HRDPS.CONTINENTAL_WSPD").isSuccess = false) :
    windBlockIssues fetch maxWind = [Issue.windUnavailable] := by
  cases hw : fetch "HRDPS.CONTINENTAL_WSPD" <;>
    simp_all [FetchResult.isSuccess, windBlockIssues]

theorem gustBlockIssues_of_fail (fetch : String → FetchResult) (maxGust : ℚ)
    (h : (fetch "HRDPS.CONTINENTAL_GUST").isSuccess = false) :
    gustBlockIssues fetch maxGust = [] := by
  cases hg : fetch "HRDPS.CONTINENTAL_GUST" <;>
    simp_all [FetchResult.isSuccess, gustBlockIssues]

theorem tempBlockIssues_of_fail (fetch : String → FetchResult)
    (h : (fetch "HRDPS.CONTINENTAL_TT").isSuccess = false) :
    tempBlockIssues fetch = [] := by
  cases ht : fetch "HRDPS.CONTINENTAL_TT" <;>
    simp_all [FetchResult.isSuccess, tempBlockIssues]

theorem precipBlockIssues_of_fail (fetch : String → FetchResult)
    (h : (fetch "HRDPS.CONTINENTAL_PR").isSuccess = false) :
    precipBlockIssues fetch = [] := by
  cases hp : fetch "HRDPS.CONTINENTAL_PR" <;>
    simp_all [FetchResult.isSuccess, precipBlockIssues]

theorem windBlockIssues_shape (fetch : String → FetchResult) (maxWind : ℚ)
    (i : Issue) (h : i ∈ windBlockIssues fetch maxWind) :
    (∃ s m, i = Issue.windExceeds s m) ∨ i = Issue.windUnavailable := by
  rcases hw : fetch "HRDPS.CONTINENTAL_WSPD" with ⟨v, u⟩ | d
  · simp only [windBlockIssues, hw] at h
    split_ifs at h with hc
    · simp at h; exact Or.inl ⟨_, _, h⟩
    · simp at h
  · simp only [windBlockIssues, hw] at h
    simp at h; exact Or.inr h

theorem gustBlockIssues_shape (fetch : String → FetchResult) (maxGust : ℚ)
    (i : Issue) (h : i ∈ gustBlockIssues fetch maxGust) :
    ∃ g m, i = Issue.gustExceeds g m := by
  rcases hg : fetch "HRDPS.CONTINENTAL_GUST" with ⟨v, u⟩ | d
  · simp only [gustBlockIssues, hg] at h
    split_ifs at h with hc
    · simp at h; exact ⟨_, _, h⟩
    · simp at h
  · simp only [gustBlockIssues, hg] at h
    simp at h

theorem tempBlockIssues_shape (fetch : String → FetchResult)
    (i : Issue) (h : i ∈ tempBlockIssues fetch) :
    ∃ t, i = Issue.extremeCold t := by
  rcases ht : fetch "HRDPS.CONTINENTAL_TT" with ⟨v, u⟩ | d
  · simp only [tempBlockIssues, ht] at h
    split_ifs at h with hc
    · simp at h; exact ⟨_, h⟩
    · simp at h
  · simp only [tempBlockIssues, ht] at h
    simp at h

theorem precipBlockIssues_shape (fetch : String → FetchResult)
    (i : Issue) (h : i ∈ precipBlockIssues fetch) :
    (∃ p, i = Issue.heavyPrecip p) ∨ ∃ p, i = Issue.moderatePrecip p := by
  rcases hp : fetch "HRDPS.CONTINENTAL_PR" with ⟨v, u⟩ | d
  · simp only [precipBlockIssues, hp] at h
    split_ifs at h with hc1 hc2
    · simp at h; exact Or.inl ⟨_, h⟩
    · simp at h; exact Or.inr ⟨_, h⟩
    · simp at h
  · simp only [precipBlockIssues, hp] at h
    simp at h

/-- Stub upstream whose every fetch fails. -/
def errStub : String → FetchResult := fun _ => FetchResult.fetchError "HTTP 404"

/-- Stub upstream: temperature 50 °C, benign wind 1 m/s, gust 1 m/s, no
precipitation; every fetch succeeds. -/
def hotStub : String → FetchResult := fun layer =>
  match layer with
  | "HRDPS.CONTINENTAL_TT" => FetchResult.success 50 "Celsius"
  | "HRDPS.CONTINENTAL_WSPD" => FetchResult.success 1 "m/s"
  | "HRDPS.CONTINENTAL_GUST" => FetchResult.success 1 "m/s"
  | "HRDPS.CONTINENTAL_PR" => FetchResult.success 0 "kg/(m^2)"
  | _ => FetchResult.success 0 "unknown"

/-- Stub upstream: temperature -25 °C, benign wind 1 m/s, gust 1 m/s, no
precipitation; every fetch succeeds. -/
def coldStub : String → FetchResult := fun layer =>
  match layer with
  | "HRDPS.CONTINENTAL_TT" => FetchResult.success (-25) "Celsius"
  | "HRDPS.CONTINENTAL_WSPD" => FetchResult.success 1 "m/s"
  | "HRDPS.CONTINENTAL_GUST" => FetchResult.success 1 "m/s"
  | "HRDPS.CONTINENTAL_PR" => FetchResult.success 0 "kg/(m^2)"
  | _ => FetchResult.success 0 "unknown"

/-- C3 (counterexample): with a successful temperature of 50 °C — far
above the spec's default 40 °C maximum — and benign wind/gust/precip,
the assessment raises no issue at all: the code has no maximum-temperature
check, so no "exceeds" issue is produced. -/
theorem claimC3_counterexample :
    hotStub "HRDPS.CONTINENTAL_TT" = FetchResult.success 50 "Celsius" ∧
    (50 : ℚ) > 40 ∧
    (bvlosModel calcWindZero hotStub 45 (-75) 20 25).issues = [] := by
  refine ⟨rfl, by norm_num, ?_⟩
  rw [bvlos_unfold calcWindZero hotStub 45 (-75) 20 25 (by norm_num)]
  norm_num [bvlosIssues, windBlockIssues, gustBlockIssues, tempBlockIssues,
    precipBlockIssues, hotStub, mps_to_knots]

/-- C3 (amended): when the temperature fetch succeeds with value t, the
assessment raises a temperature issue — "Extreme cold: t°C", the code's
rendering of the temperature-below-minimum condition — exactly when t is
strictly below the fixed -20 °C floor; there is no configurable minimum or
maximum temperature threshold, and no issue for high temperatures. -/
theorem claimC3 (calcWind : ℚ → ℚ → ℚ × ℚ) (fetch : String → FetchResult)
    (lat lon maxWind maxGust t : ℚ) (u : String)
    (henv : 40 ≤ lat ∧ lat ≤ 85 ∧ -145 ≤ lon ∧ lon ≤ -50)
    (ht : fetch "HRDPS.CONTINENTAL_TT" = FetchResult.success t u) :
    (t < -20 → Issue.extremeCold t ∈
      (bvlosModel calcWind fetch lat lon maxWind maxGust).issues) ∧
    (¬ t < -20 → ∀ x, Issue.extremeCold x ∉
      (bvlosModel calcWind fetch lat lon maxWind maxGust).issues) := by
  rw [bvlos_issues_eq calcWind fetch lat lon maxWind maxGust henv]
  constructor
  · intro hcold
    have hmem : Issue.extremeCold t ∈ tempBlockIssues fetch := by
      simp [tempBlockIssues, ht, hcold]
    simp [bvlosIssues, List.mem_append, hmem]
  · intro hwarm x hx
    simp only [bvlosIssues, List.mem_append] at hx
    rcases hx with ((hx | hx) | hx) | hx
    · rcases windBlockIssues_shape fetch maxWind _ hx with ⟨s, m, hh⟩ | hh <;>
        simp at hh
    · rcases gustBlockIssues_shape fetch maxGust _ hx with ⟨g, m, hh⟩
      simp at hh
    · simp [tempBlockIssues, ht, hwarm] at hx
    · rcases precipBlockIssues_shape fetch _ hx with ⟨p, hh⟩ | ⟨p, hh⟩ <;>
        simp at hh

/-- Witness for C3: at -25 °C the extreme-cold issue is raised. -/
theorem claimC3_witness :
    Issue.extremeCold (-25) ∈
      (bvlosModel calcWindZero coldStub 45 (-75) 20 25).issues :=
  (claimC3 calcWindZero coldStub 45 (-75) 20 25 (-25) "Celsius"
    (by norm_num) rfl).1 (by norm_num)

/-- C4: the names wind_u and wind_v appear in neither layer dict, so the
resolver answers not_available for them without fetching anything (empty
trace), for every upstream; consequently, whenever the direct wind-speed
layer fails, the compute-from-components branch cannot fire: /weather
reports no wind speed and /bvlos-assessment has no wind_speed_kts
condition and raises the wind-unavailable issue. -/
theorem claimC4 :
    (HRDPS_LAYERS "wind_u" = none ∧ HRDPS_LAYERS "wind_v" = none ∧
     HRDPS_LAYER_ALTERNATES "wind_u" = [] ∧
     HRDPS_LAYER_ALTERNATES "wind_v" = []) ∧
    (∀ fetch,
      try_layer_with_alternates fetch "wind_u" = (LayerResult.notAvailable, []) ∧
      try_layer_with_alternates fetch "wind_v" = (LayerResult.notAvailable, [])) ∧
    (∀ (calcWind : ℚ → ℚ → ℚ × ℚ) (fetch : String → FetchResult)
       (lat lon maxWind maxGust : ℚ),
      40 ≤ lat ∧ lat ≤ 85 ∧ -145 ≤ lon ∧ lon ≤ -50 →
      (fetch "HRDPS.CONTINENTAL_WSPD").isSuccess = false →
      (getWeatherModel calcWind fetch lat lon).wind_speed_mps = none ∧
      (getWeatherModel calcWind fetch lat lon).wind_speed_kts = none ∧
      Issue.windUnavailable ∈
        (bvlosModel calcWind fetch lat lon maxWind maxGust).issues ∧
      ∀ p, ("wind_speed_kts", p) ∉
        (bvlosModel calcWind fetch lat lon maxWind maxGust).conditions) := by
  refine ⟨⟨rfl, rfl, rfl, rfl⟩, fun fetch => ⟨rfl, rfl⟩, ?_⟩
  intro calcWind fetch lat lon maxWind maxGust henv hfail
  rw [getWeather_unfold calcWind fetch lat lon henv,
    bvlos_issues_eq calcWind fetch lat lon maxWind maxGust henv,
    bvlos_conditions_eq calcWind fetch lat lon maxWind maxGust henv]
  refine ⟨?_, ?_, ?_, ?_⟩
  · simp [successValue_eq_none _ hfail]
  · simp [successValue_eq_none _ hfail]
  · simp [bvlosIssues, List.mem_append, windBlockIssues_of_fail fetch maxWind hfail]
  · intro p
    rcases hw : fetch "HRDPS.CONTINENTAL_WSPD" with ⟨v, u⟩ | d
    · rw [hw] at hfail; simp [FetchResult.isSuccess] at hfail
    · cases hg : fetch "HRDPS.CONTINENTAL_GUST" <;>
        cases htt : fetch "HRDPS.CONTINENTAL_TT" <;>
        cases hpr : fetch "HRDPS.CONTINENTAL_PR" <;>
        simp [bvlosConds, hw, hg, htt, hpr]

/-- Witness for C4: with a fully failing upstream, /weather reports no
wind speed and the assessment raises the wind-unavailable issue. -/
theorem claimC4_witness :
    (getWeatherModel calcWindZero errStub 45 (-75)).wind_speed_kts = none ∧
    Issue.windUnavailable ∈
      (bvlosModel calcWindZero errStub 45 (-75) 20 25).issues := by
  have h := claimC4.2.2 calcWindZero errStub 45 (-75) 20 25 (by norm_num) rfl
  exact ⟨h.2.1, h.2.2.1⟩

/-- C8: when the wind-speed resolution fails (direct layer, and the U/V
components cannot resolve), the wind-unavailable issue is appended; a
failing gust, temperature or precipitation fetch adds no issue — the gust
condition is recorded as null, and the temperature and precipitation keys
are simply absent from the conditions dict. -/
theorem claimC8 (calcWind : ℚ → ℚ → ℚ × ℚ) (fetch : String → FetchResult)
    (lat lon maxWind maxGust : ℚ)
    (henv : 40 ≤ lat ∧ lat ≤ 85 ∧ -145 ≤ lon ∧ lon ≤ -50) :
    ((fetch "HRDPS.CONTINENTAL_WSPD").isSuccess = false →
      Issue.windUnavailable ∈
        (bvlosModel calcWind fetch lat lon maxWind maxGust).issues) ∧
    ((fetch "HRDPS.CONTINENTAL_GUST").isSuccess = false →
      (∀ g m, Issue.gustExceeds g m ∉
        (bvlosModel calcWind fetch lat lon maxWind maxGust).issues) ∧
      ("wind_gust_kts", (none : Option ℚ)) ∈
        (bvlosModel calcWind fetch lat lon maxWind maxGust).conditions) ∧
    ((fetch "HRDPS.CONTINENTAL_TT").isSuccess = false →
      (∀ x, Issue.extremeCold x ∉
        (bvlosModel calcWind fetch lat lon maxWind maxGust).issues) ∧
      ∀ p, ("temperature_c", p) ∉
        (bvlosModel calcWind fetch lat lon maxWind maxGust).conditions) ∧
    ((fetch "HRDPS.CONTINENTAL_PR").isSuccess = false →
      (∀ x, Issue.heavyPrecip x ∉
        (bvlosModel calcWind fetch lat lon maxWind maxGust).issues) ∧
      (∀ x, Issue.moderatePrecip x ∉
        (bvlosModel calcWind fetch lat lon maxWind maxGust).issues) ∧
      ∀ p, ("precipitation_mm", p) ∉
        (bvlosModel calcWind fetch lat lon maxWind maxGust).conditions) := by
  rw [bvlos_issues_eq calcWind fetch lat lon maxWind maxGust henv,
    bvlos_conditions_eq calcWind fetch lat lon maxWind maxGust henv]
  refine ⟨?_, ?_, ?_, ?_⟩
  · intro h
    simp [bvlosIssues, List.mem_append, windBlockIssues_of_fail fetch maxWind h]
  · intro h
    constructor
    · intro g m hmem
      simp only [bvlosIssues, List.mem_append] at hmem
      rcases hmem with ((hx | hx) | hx) | hx
      · rcases windBlockIssues_shape fetch maxWind _ hx with ⟨s, m2, hh⟩ | hh <;>
          simp at hh
      · rw [gustBlockIssues_of_fail fetch maxGust h] at hx; simp at hx
      · rcases tempBlockIssues_shape fetch _ hx with ⟨t, hh⟩; simp at hh
      · rcases precipBlockIssues_shape fetch _ hx with ⟨p, hh⟩ | ⟨p, hh⟩ <;>
          simp at hh
    · rcases hg : fetch "HRDPS.CONTINENTAL_GUST" with ⟨v, u⟩ | d
      · rw [hg] at h; simp [FetchResult.isSuccess] at h
      · simp [bvlosConds, hg, List.mem_append]
  · intro h
    constructor
    · intro x hmem
      simp only [bvlosIssues, List.mem_append] at hmem
      rcases hmem with ((hx | hx) | hx) | hx
      · rcases windBlockIssues_shape fetch maxWind _ hx with ⟨s, m2, hh⟩ | hh <;>
          simp at hh
      · rcases gustBlockIssues_shape fetch maxGust _ hx with ⟨g, m2, hh⟩
        simp at hh
      · rw [tempBlockIssues_of_fail fetch h] at hx; simp at hx
      · rcases precipBlockIssues_shape fetch _ hx with ⟨p, hh⟩ | ⟨p, hh⟩ <;>
          simp at hh
    · intro p
      rcases htt : fetch "HRDPS.CONTINENTAL_TT" with ⟨v, u⟩ | d
      · rw [htt] at h; simp [FetchResult.isSuccess] at h
      · cases hw : fetch "HRDPS.CONTINENTAL_WSPD" <;>
          cases hg : fetch "HRDPS.CONTINENTAL_GUST" <;>
          cases hpr : fetch "HRDPS.CONTINENTAL_PR" <;>
          simp [bvlosConds, hw, hg, htt, hpr]
  · intro h
    refine ⟨?_, ?_, ?_⟩
    · intro x hmem
      simp only [bvlosIssues, List.mem_append] at hmem
      rcases hmem with ((hx | hx) | hx) | hx
      · rcases windBlockIssues_shape fetch maxWind _ hx with ⟨s, m2, hh⟩ | hh <;>
          simp at hh
      · rcases gustBlockIssues_shape fetch maxGust _ hx with ⟨g, m2, hh⟩
        simp at hh
      · rcases tempBlockIssues_shape fetch _ hx with ⟨t, hh⟩; simp at hh
      · rw [precipBlockIssues_of_fail fetch h] at hx; simp at hx
    · intro x hmem
      simp only [bvlosIssues, List.mem_append] at hmem
      rcases hmem with ((hx | hx) | hx) | hx
      · rcases windBlockIssues_shape fetch maxWind _ hx with ⟨s, m2, hh⟩ | hh <;>
          simp at hh
      · rcases gustBlockIssues_shape fetch maxGust _ hx with ⟨g, m2, hh⟩
        simp at hh
      · rcases tempBlockIssues_shape fetch _ hx with ⟨t, hh⟩; simp at hh
      · rw [precipBlockIssues_of_fail fetch h] at hx; simp at hx
    · intro p
      rcases hpr : fetch "HRDPS.CONTINENTAL_PR" with ⟨v, u⟩ | d
      · rw [hpr] at h; simp [FetchResult.isSuccess] at h
      · cases hw : fetch "HRDPS.CONTINENTAL_WSPD" <;>
          cases hg : fetch "HRDPS.CONTINENTAL_GUST" <;>
          cases htt : fetch "HRDPS.CONTINENTAL_TT" <;>
          simp [bvlosConds, hw, hg, htt, hpr]

/-- Witness for C8: with a fully failing upstream the assessment raises
the wind-unavailable issue and records a null gust condition. -/
theorem claimC8_witness :
    Issue.windUnavailable ∈
      (bvlosModel calcWindZero errStub 45 (-75) 20 25).issues ∧
    ("wind_gust_kts", (none : Option ℚ)) ∈
      (bvlosModel calcWindZero errStub 45 (-75) 20 25).conditions := by
  have h := claimC8 calcWindZero errStub 45 (-75) 20 25 (by norm_num)
  exact ⟨h.1 rfl, (h.2.1 rfl).2⟩

theorem tryAlternates_fail (fetch : String → FetchResult) (ls : List String)
    (h : ∀ a ∈ ls, (fetch a).isSuccess = false) :
    (tryAlternates fetch ls).1 = LayerResult.notAvailable := by
  induction ls with
  | nil => rfl
  | cons l ls ih =>
    cases hf : fetch l with
    | success v u =>
      have := h l (List.mem_cons_self l ls)
      rw [hf] at this; simp [FetchResult.isSuccess] at this
    | fetchError d =>
      simp only [tryAlternates, hf]
      exact ih fun a ha => h a (List.mem_cons_of_mem l ha)

theorem successValue_isSome (r : FetchResult) :
    (successValue r).isSome = r.isSuccess := by
  cases r <;> rfl

theorem mem_ite_nil_singleton {α : Type} (c : Prop) [Decidable c] (a b : α) :
    (a ∈ if c then ([] : List α) else [b]) ↔ ¬c ∧ a = b := by
  split_ifs with h <;> simp [h]

/-- C6: total upstream failure for a variable (primary and all alternates
failing) resolves to not_available; and for any in-coverage request,
/weather still answers 200, listing exactly the failed variables in
unavailable_data while each successfully fetched variable keeps its
value. -/
theorem claimC6 :
    (∀ (layers : String → Option String) (alternates : String → List String)
       (fetch : String → FetchResult) (varName : String),
      (∀ p, layers varName = some p → (fetch p).isSuccess = false) →
      (∀ a ∈ alternates varName, (fetch a).isSuccess = false) →
      (tryLayerTrace layers alternates fetch varName).1 =
        LayerResult.notAvailable) ∧
    ∀ (calcWind : ℚ → ℚ → ℚ × ℚ) (fetch : String → FetchResult) (lat lon : ℚ),
      40 ≤ lat ∧ lat ≤ 85 ∧ -145 ≤ lon ∧ lon ≤ -50 →
      (getWeatherModel calcWind fetch lat lon).code = 200 ∧
      (("temperature" ∈ (getWeatherModel calcWind fetch lat lon).unavailable_data ↔
          (fetch "HRDPS.CONTINENTAL_TT").isSuccess = false) ∧
        (getWeatherModel calcWind fetch lat lon).temperature_c.isSome =
          (fetch "HRDPS.CONTINENTAL_TT").isSuccess) ∧
      (("wind_speed" ∈ (getWeatherModel calcWind fetch lat lon).unavailable_data ↔
          (fetch "HRDPS.CONTINENTAL_WSPD").isSuccess = false) ∧
        (getWeatherModel calcWind fetch lat lon).wind_speed_kts.isSome =
          (fetch "HRDPS.CONTINENTAL_WSPD").isSuccess) ∧
      (("wind_direction" ∈ (getWeatherModel calcWind fetch lat lon).unavailable_data ↔
          (fetch "HRDPS.CONTINENTAL_WD").isSuccess = false) ∧
        (getWeatherModel calcWind fetch lat lon).wind_direction_deg.isSome =
          (fetch "HRDPS.CONTINENTAL_WD").isSuccess) ∧
      (("wind_gust" ∈ (getWeatherModel calcWind fetch lat lon).unavailable_data ↔
          (fetch "HRDPS.CONTINENTAL_GUST").isSuccess = false) ∧
        (getWeatherModel calcWind fetch lat lon).wind_gust_kts.isSome =
          (fetch "HRDPS.CONTINENTAL_GUST").isSuccess) ∧
      (("precipitation" ∈ (getWeatherModel calcWind fetch lat lon).unavailable_data ↔
          (fetch "HRDPS.CONTINENTAL_PR").isSuccess = false) ∧
        (getWeatherModel calcWind fetch lat lon).precipitation_mm.isSome =
          (fetch "HRDPS.CONTINENTAL_PR").isSuccess) ∧
      (("cloud_cover" ∈ (getWeatherModel calcWind fetch lat lon).unavailable_data ↔
          (fetch "HRDPS.CONTINENTAL_TCDC").isSuccess = false) ∧
        (getWeatherModel calcWind fetch lat lon).cloud_cover_pct.isSome =
          (fetch "HRDPS.CONTINENTAL_TCDC").isSuccess) ∧
      (("humidity" ∈ (getWeatherModel calcWind fetch lat lon).unavailable_data ↔
          (fetch "HRDPS.CONTINENTAL_HU").isSuccess = false) ∧
        (getWeatherModel calcWind fetch lat lon).specific_humidity_kgkg.isSome =
          (fetch "HRDPS.CONTINENTAL_HU").isSuccess) := by
  constructor
  · intro layers alternates fetch varName hp ha
    cases hl : layers varName with
    | some primary =>
      cases hf : fetch primary with
      | success v u =>
        have hcontra := hp primary hl
        rw [hf] at hcontra; simp [FetchResult.isSuccess] at hcontra
      | fetchError d =>
        simp only [tryLayerTrace, hl, hf]
        exact tryAlternates_fail fetch _ ha
    | none =>
      simp only [tryLayerTrace, hl]
      exact tryAlternates_fail fetch _ ha
  · intro calcWind fetch lat lon henv
    rw [getWeather_unfold calcWind fetch lat lon henv]
    refine ⟨rfl, ⟨?_, ?_⟩, ⟨?_, ?_⟩, ⟨?_, ?_⟩, ⟨?_, ?_⟩, ⟨?_, ?_⟩,
      ⟨?_, ?_⟩, ⟨?_, ?_⟩⟩ <;>
      simp [List.mem_append, mem_ite_nil_singleton, successValue_isSome]

/-- Stub upstream where only the temperature layer fails. -/
def tempFailStub : String → FetchResult := fun layer =>
  match layer with
  | "HRDPS.CONTINENTAL_TT" => FetchResult.fetchError "HTTP 404"
  | _ => FetchResult.success 0 "unknown"

/-- Witness for C6: with a failing temperature layer, the request still
answers 200, lists temperature as unavailable, keeps the wind value, and
the resolver outcome is not_available. -/
theorem claimC6_witness :
    (getWeatherModel calcWindZero tempFailStub 45 (-75)).code = 200 ∧
    "temperature" ∈ (getWeatherModel calcWindZero tempFailStub 45 (-75)).unavailable_data ∧
    (getWeatherModel calcWindZero tempFailStub 45 (-75)).wind_speed_kts.isSome = true ∧
    (tryLayerTrace HRDPS_LAYERS HRDPS_LAYER_ALTERNATES tempFailStub
      "temperature").1 = LayerResult.notAvailable := by
  have h := claimC6
  have h2 := h.2 calcWindZero tempFailStub 45 (-75) (by norm_num)
  refine ⟨h2.1, h2.2.1.1.mpr rfl, h2.2.2.1.2.trans rfl, ?_⟩
  refine h.1 HRDPS_LAYERS HRDPS_LAYER_ALTERNATES tempFailStub "temperature"
    (fun p hp => ?_) (fun a ha => ?_)
  · have h0 : HRDPS_LAYERS "temperature" = some "HRDPS.CONTINENTAL_TT" := rfl
    rw [h0] at hp
    rw [(Option.some.inj hp).symm]
    rfl
  · simp [HRDPS_LAYER_ALTERNATES] at ha

/-- C10: the assessment is a deterministic pure function of the resolved
variable outcomes and the thresholds — two upstreams whose resolver
outcomes agree on the six wind/gust/temperature/precipitation variables
yield byte-identical assessment results (same conditions, issues, status
and recommendation). -/
theorem claimC10 (calcWind : ℚ → ℚ → ℚ × ℚ)
    (f1 f2 : String → FetchResult) (lat lon maxWind maxGust : ℚ)
    (hws : try_layer_with_alternates f1 "wind_speed" =
      try_layer_with_alternates f2 "wind_speed")
    (hu : try_layer_with_alternates f1 "wind_u" =
      try_layer_with_alternates f2 "wind_u")
    (hv : try_layer_with_alternates f1 "wind_v" =
      try_layer_with_alternates f2 "wind_v")
    (hg : try_layer_with_alternates f1 "wind_gust" =
      try_layer_with_alternates f2 "wind_gust")
    (ht : try_layer_with_alternates f1 "temperature" =
      try_layer_with_alternates f2 "temperature")
    (hp : try_layer_with_alternates f1 "precip_accum" =
      try_layer_with_alternates f2 "precip_accum") :
    bvlosModel calcWind f1 lat lon maxWind maxGust =
      bvlosModel calcWind f2 lat lon maxWind maxGust := by
  rw [bvlosModel, bvlosModel, hws, hu, hv, hg, ht, hp]

/-- Witness for C10: two evaluations on the same upstream agree. -/
theorem claimC10_witness :
    bvlosModel calcWindZero ottawaStub 45 (-75) 20 25 =
      bvlosModel calcWindZero ottawaStub 45 (-75) 20 25 :=
  claimC10 calcWindZero ottawaStub ottawaStub 45 (-75) 20 25
    rfl rfl rfl rfl rfl rfl

/-- C5: `calculate_wind_speed_direction` returns the closed-form speed
sqrt(u² + v²) and the meteorological wind-FROM direction
(atan2(-u, -v) in degrees + 360) mod 360 for every component pair, and in
particular u = -5, v = 0 gives speed 5 m/s and direction 90°. -/
theorem claimC5 :
    (∀ u v : ℝ, calculate_wind_speed_direction u v =
      (Real.sqrt (u ^ 2 + v ^ 2),
       fmod (degrees (arctan2 (-u) (-v)) + 360) 360)) ∧
    calculate_wind_speed_direction (-5) 0 = (5, 90) := by
  refine ⟨fun u v => rfl, ?_⟩
  unfold calculate_wind_speed_direction
  have hspeed : Real.sqrt ((-5 : ℝ) ^ 2 + 0 ^ 2) = 5 := by
    rw [show ((-5 : ℝ)) ^ 2 + 0 ^ 2 = 5 ^ 2 by norm_num]
    exact Real.sqrt_sq (by norm_num)
  have harg : arctan2 (-(-5 : ℝ)) (-(0 : ℝ)) = Real.pi / 2 := by
    unfold arctan2
    rw [Complex.arg_eq_pi_div_two_iff]
    constructor
    · show (-(0 : ℝ)) = 0
      norm_num
    · show (0 : ℝ) < -(-5 : ℝ)
      norm_num
  have hdeg : degrees (Real.pi / 2) = 90 := by
    unfold degrees
    field_simp
    ring
  have hdir : fmod (degrees (arctan2 (-(-5 : ℝ)) (-(0 : ℝ))) + 360) 360 = 90 := by
    rw [harg, hdeg]
    unfold fmod
    have hf : ⌊((90 : ℝ) + 360) / 360⌋ = 1 := by
      rw [Int.floor_eq_iff]; norm_num
    rw [hf]
    norm_num
  rw [hspeed, hdir]
